import Mathlib

/-!
# Verification of the Daily Gratitude Journal (Streamlit app + reminder job)

Shallow embedding of the two source files:
* `app.py` — registration/login, daily gratitude entry flow, weekly letter
  flow, superuser view;
* `send_reminders.py` — the standalone reminder batch job.

Dates are embedded as proleptic-Gregorian ordinals (Python's
`date.toordinal()`): ordinal 1 is 0001-01-01, a Monday, so
`isoweekday(n) = (n - 1) % 7 + 1` and subtracting a `timedelta(days = k)`
is `n - k`.  Backend tables are embedded as lists of rows; a backend call
that may raise is given an explicit `Bool` success flag, with the `catch`
branch of the Python code modelled on the `false` case.
-/

namespace GratitudeApp

/-! ## Date helpers (`app.py`, `get_week_start`, lines 117–121) -/

/-- Python's `date.isoweekday()` on an ordinal: Monday = 1 … Sunday = 7.
Ordinal 1 (0001-01-01) is a Monday in the proleptic Gregorian calendar. -/
def isoweekday (n : ℕ) : ℕ := (n - 1) % 7 + 1

/-- Embedding of `get_week_start` (`app.py` lines 117–121): the Monday of the ISO week of
`d`, computed as `d - timedelta(days = d.isoweekday() - 1)`. -/
def get_week_start (n : ℕ) : ℕ := n - (isoweekday n - 1)

/-! ## Email validation (`app.py`, `is_valid_email`, lines 85–88)

The Python code is `re.match(r"[^@]+@[^@]+\.[^@]+", email)`: a *prefix*
match of the pattern against the string.  The matcher below is the
existential semantics of that regex, split by sub-pattern. -/

/-- Returns `true` iff the list starts with a character other than `'@'`
(the final `[^@]+` of the pattern, as a prefix match, needs exactly one
such character). -/
def headNonAt : List Char → Bool
  | [] => false
  | d :: _ => d ≠ '@'

/-- Prefix match of `[^@]*\.[^@]+`: some run of non-`'@'` characters, a
literal dot, then at least one non-`'@'` character. -/
def matchDotTail : List Char → Bool
  | [] => false
  | c :: rest => c ≠ '@' && ((c = '.' && headNonAt rest) || matchDotTail rest)

/-- Prefix match of `[^@]+\.[^@]+`. -/
def matchAfterAt : List Char → Bool
  | [] => false
  | c :: rest => c ≠ '@' && matchDotTail rest

/-- Prefix match of `[^@]*@[^@]+\.[^@]+`: skip non-`'@'` characters up to
the first `'@'` (the pattern's `@` can only ever match the first `'@'` of
the string, since `[^@]+` cannot cross one), then match the tail pattern. -/
def findAtThen : List Char → Bool
  | [] => false
  | c :: rest => if c = '@' then matchAfterAt rest else findAtThen rest

/-- Embedding of `is_valid_email` (`app.py` lines 85–88): truthiness of
`re.match(r"[^@]+@[^@]+\.[^@]+", email)`, i.e. whether some prefix of
`email` matches the pattern. -/
def is_valid_email (email : List Char) : Bool :=
  match email with
  | [] => false
  | c :: rest => c ≠ '@' && findAtThen rest

/-- The email predicate as the specification words it: exactly one `'@'`
and at least one `'.'` somewhere after that `'@'`. -/
def spec_email_ok (email : List Char) : Bool :=
  email.count '@' = 1 && ((email.dropWhile fun c => c ≠ '@').drop 1).contains '.'

/-- Declarative shape of the strings `is_valid_email` accepts: a prefix of
the form (nonempty `'@'`-free block) `'@'` (nonempty `'@'`-free block)
`'.'` (one non-`'@'` character), the rest unconstrained. -/
def EmailShape (l : List Char) : Prop :=
  ∃ a b d r, l = a ++ '@' :: (b ++ '.' :: d :: r) ∧
    a ≠ [] ∧ b ≠ [] ∧ (∀ c ∈ a, c ≠ '@') ∧ (∀ c ∈ b, c ≠ '@') ∧ d ≠ '@'

/-! ## User table, registration and login (`app.py` lines 57–82, 157–207) -/

/-- A row of the `user_data` table: `user_id` and `email`. -/
structure UserRow where
  user_id : String
  email : List Char
  deriving Repr, DecidableEq

/-- Embedding of `check_user_exists` (`app.py` lines 57–65): counts rows of `user_data`
with `user_id = username` and returns `count > 0`; any exception from the
query is caught and `False` is returned (`readOk = false` models the
query raising). -/
def check_user_exists (tbl : List UserRow) (username : String) (readOk : Bool) : Bool :=
  if readOk then (tbl.filter fun r => r.user_id = username).length > 0 else false

/-- Embedding of `register_new_user` (`app.py` lines 68–82): inserts the
`{user_id, email}` row and returns `True`; on an insert exception returns
`False` with the table unchanged (`insertOk = false`). -/
def register_new_user (tbl : List UserRow) (username : String) (email : List Char)
    (insertOk : Bool) : Bool × List UserRow :=
  if insertOk then (true, tbl ++ [⟨username, email⟩]) else (false, tbl)

/-- Outcome of one submission of the registration form. -/
inductive RegOutcome where
  | missingInput
  | invalidInput
  | duplicateUser
  | storeFailure
  | registered
  deriving Repr, DecidableEq

/-- The registration form submit handler (`app.py` lines 192–207):
empty username or email → "required" error; invalid email → "valid email"
error; `check_user_exists` → duplicate error; otherwise insert via
`register_new_user`. -/
def registration_submit (tbl : List UserRow) (username : String) (email : List Char)
    (readOk insertOk : Bool) : RegOutcome × List UserRow :=
  if username = "" ∨ email = [] then (RegOutcome.missingInput, tbl)
  else if ¬ is_valid_email email then (RegOutcome.invalidInput, tbl)
  else if check_user_exists tbl username readOk then (RegOutcome.duplicateUser, tbl)
  else
    match register_new_user tbl username email insertOk with
    | (true, t) => (RegOutcome.registered, t)
    | (false, t) => (RegOutcome.storeFailure, t)

/-- Outcome of one submission of the login form. -/
inductive LoginOutcome where
  | emptyInput
  | loggedIn
  | userNotFound
  deriving Repr, DecidableEq

/-- The login form submit handler (`app.py` lines 170–179): empty username
→ error; `check_user_exists` → logged in; otherwise "username not found"
warning. -/
def login_submit (tbl : List UserRow) (username : String) (readOk : Bool) : LoginOutcome :=
  if username = "" then LoginOutcome.emptyInput
  else if check_user_exists tbl username readOk then LoginOutcome.loggedIn
  else LoginOutcome.userNotFound

/-! ## Superuser determination (`app.py` lines 213–218) -/

/-- The `[admin]` section of `secrets.toml`: `none` = no `admin` section,
`some none` = section present but no `superuser_name` key,
`some (some name)` = configured name. -/
abbrev AdminSecrets := Option (Option String)

/-- Superuser determination (`app.py` lines 213–218): when both `admin`
and `superuser_name` are present, exact string equality against the
session's user; otherwise `False`. -/
def is_superuser_of (admin : AdminSecrets) (user : String) : Bool :=
  match admin with
  | some (some name) => user = name
  | _ => false

/-- Which rows a tab renders (`app.py` lines 274–279 and 343–348): the
unfiltered `load_all_data` view iff the session is the superuser, the
`load_user_data` per-user view otherwise. -/
inductive DataScope where
  | allRows
  | userRows
  deriving Repr, DecidableEq

/-- Scope of the data loaded by either tab for a session. -/
def tab_scope (admin : AdminSecrets) (user : String) : DataScope :=
  if is_superuser_of admin user then DataScope.allRows else DataScope.userRows

/-! ## Daily entry flow (`app.py` lines 125–135, 240–247, 283–336) -/

/-- A row of the `daily_gratitude` table. -/
structure DailyRow where
  user_id : String
  date : String
  g1 : String
  r1 : String
  g2 : String
  r2 : String
  g3 : String
  r3 : String
  deriving Repr, DecidableEq

/-- Embedding of `insert_to_supabase` for the daily table (`app.py` lines 103–114):
appends the row on success; on an insert exception the table is unchanged
and `False` is returned. -/
def insert_daily (tbl : List DailyRow) (row : DailyRow) (insertOk : Bool) :
    Bool × List DailyRow :=
  if insertOk then (true, tbl ++ [row]) else (false, tbl)

/-- Embedding of `load_user_data(DAILY_TABLE, user)` (`app.py` lines 91–101): the rows
whose `user_id` equals the logged-in user. -/
def load_user_data_daily (tbl : List DailyRow) (user : String) : List DailyRow :=
  tbl.filter fun r => r.user_id = user

/-- The tab-1 "already submitted today" check (`app.py` lines 240–241 and
283–285): `today_str ∈ daily_dates` where `daily_dates` are the dates of
the user's loaded rows (`False` when that frame is empty). -/
def has_submitted_today (tbl : List DailyRow) (user today : String) : Bool :=
  (load_user_data_daily tbl user).any fun r => r.date = today

/-- Outcome of one submission of the gratitude form. -/
inductive SubmitOutcome where
  | validationFailure
  | storeFailure
  | saved
  deriving Repr, DecidableEq

/-- The gratitude form submit handler together with `save_daily_entry`
(`app.py` lines 125–135 and 324–336): requires all six strings truthy
(non-empty), then inserts the row
`{user_id, date: today, g1, r1, g2, r2, g3, r3}`. -/
def gratitude_submit (tbl : List DailyRow) (user today : String)
    (g1 r1 g2 r2 g3 r3 : String) (insertOk : Bool) : SubmitOutcome × List DailyRow :=
  if g1 ≠ "" ∧ r1 ≠ "" ∧ g2 ≠ "" ∧ r2 ≠ "" ∧ g3 ≠ "" ∧ r3 ≠ "" then
    match insert_daily tbl ⟨user, today, g1, r1, g2, r2, g3, r3⟩ insertOk with
    | (true, t) => (SubmitOutcome.saved, t)
    | (false, t) => (SubmitOutcome.storeFailure, t)
  else (SubmitOutcome.validationFailure, tbl)

/-! ## History display columns (`app.py` lines 244–250, 276–279, 343–348,
397–402)

`df.drop(columns=['user_id'], errors='ignore')` acts on the column list of
the rendered frame, so views are embedded at the level of the columns they
display. -/

/-- Columns of the `daily_gratitude` table. -/
def daily_columns : List String :=
  ["user_id", "date", "g1", "r1", "g2", "r2", "g3", "r3"]

/-- Columns of the `weekly_letters` table. -/
def weekly_columns : List String := ["user_id", "week_start", "letter_content"]

/-- Effect of `df.drop(columns=['user_id'], errors='ignore')` on a column list. -/
def drop_user_id (cols : List String) : List String :=
  cols.filter fun c => c ≠ "user_id"

/-- Columns of the rendered daily history (`app.py` line 245 for a regular
user's sidebar history, line 279 for the superuser's all-data frame):
`df_daily_entries if is_superuser else df_daily_entries.drop(columns=['user_id'])`. -/
def daily_history_columns (su : Bool) : List String :=
  if su then daily_columns else drop_user_id daily_columns

/-- Columns of the rendered weekly-letter history (`app.py` line 348 for
the superuser's all-data frame, line 401 for a regular user's
`display_df = df_weekly_letters.drop(columns=['user_id'], errors='ignore')`). -/
def weekly_history_columns (su : Bool) : List String :=
  if su then weekly_columns else drop_user_id weekly_columns

end GratitudeApp

namespace ReminderJob

/-! ## The reminder job (`send_reminders.py`) -/

/-- A row of the `user_data` table as the job reads it: `user_id` plus a
possibly-null `email`. -/
structure JobUserRow where
  user_id : String
  email : Option String
  deriving Repr, DecidableEq

/-- The five environment variables read at module level
(`send_reminders.py` lines 10–15); `none` = unset. -/
structure ReminderEnv where
  SUPABASE_URL : Option String
  SUPABASE_KEY : Option String
  MAILJET_PUBLIC_KEY : Option String
  MAILJET_SECRET_KEY : Option String
  SENDER_EMAIL : Option String
  deriving Repr, DecidableEq

/-- Python truthiness of `os.environ.get(...)`: `None` and the empty
string are falsy. -/
def truthy : Option String → Bool
  | none => false
  | some s => s ≠ ""

/-- The `all([...])` guard over the five variables
(`send_reminders.py` line 20). -/
def env_ok (env : ReminderEnv) : Bool :=
  truthy env.SUPABASE_URL && truthy env.SUPABASE_KEY &&
    truthy env.MAILJET_PUBLIC_KEY && truthy env.MAILJET_SECRET_KEY &&
    truthy env.SENDER_EMAIL

/-- Embedding of `fetch_users_for_reminder` (`send_reminders.py` lines 36–45): selects
`user_id, email` from `user_data` keeping only rows whose `email` is not
null. -/
def fetch_users_for_reminder (users : List JobUserRow) : List JobUserRow :=
  users.filter fun r => r.email.isSome

/-- The send loop of `main` (`send_reminders.py` lines 118–141): for every
fetched row whose `email` and `user_id` are present,
`send_reminder_email(row['email'], row['user_id'])` is called, in fetch
order.  Returns the `(user_id, email)` pairs sent to.  No query of the
`daily_gratitude` table occurs anywhere in the script. -/
def main_sends (users : List JobUserRow) : List (String × String) :=
  (fetch_users_for_reminder users).filterMap fun r => r.email.map fun e => (r.user_id, e)

/-- Overall outcome of one run of the script. -/
inductive JobOutcome where
  | fatalExit1
  | ran (sends : List (String × String))
  deriving Repr, DecidableEq

/-- One run of `send_reminders.py`: the module-level configuration check
(lines 20–23) exits with code 1 before `main` creates the backend client
or sends anything; otherwise `main` runs the send loop. -/
def reminder_job (env : ReminderEnv) (users : List JobUserRow) : JobOutcome :=
  if env_ok env then JobOutcome.ran (main_sends users) else JobOutcome.fatalExit1

/-- Modelled from the spec: `to_remind = users_with_email - submitted_today`
(set difference on `user_id`).  No corresponding code exists in
`send_reminders.py`; this definition follows §4.5 steps 1–3 of the spec
and is used only to compare the spec's description with `main_sends`. -/
def to_remind_spec (users : List JobUserRow) (submittedToday : List String) : List String :=
  ((users.filter fun r => r.email.isSome).map fun r => r.user_id).filter
    fun u => ¬ u ∈ submittedToday

end ReminderJob

/-! ## Theorems for the claims -/

namespace GratitudeApp

/-- C3: for every date `d`, `week_start(d)` equals `d` minus
`isoweekday(d) - 1` days; `week_start` is idempotent; and `week_start(d)`
falls on a Monday (isoweekday 1) on or before `d`, at most 6 days
earlier. -/
theorem C3_week_start_monday (n : ℕ) (h : 1 ≤ n) :
    get_week_start n = n - (isoweekday n - 1) ∧
    get_week_start (get_week_start n) = get_week_start n ∧
    isoweekday (get_week_start n) = 1 ∧
    get_week_start n ≤ n ∧ n - get_week_start n ≤ 6 := by
  unfold get_week_start isoweekday
  omega

/-- Witness for C3 at the ordinal 20. -/
theorem C3_week_start_monday_witness :
    get_week_start 20 = 20 - (isoweekday 20 - 1) ∧
    get_week_start (get_week_start 20) = get_week_start 20 ∧
    isoweekday (get_week_start 20) = 1 ∧
    get_week_start 20 ≤ 20 ∧ 20 - get_week_start 20 ≤ 6 :=
  C3_week_start_monday 20 (by decide)

/-- C6: a daily submission with at least one of the six fields empty is
rejected as a validation failure and the `daily_gratitude` table is
unchanged, whatever the state of the backend. -/
theorem C6_empty_field_rejected (tbl : List DailyRow) (user today : String)
    (g1 r1 g2 r2 g3 r3 : String) (insertOk : Bool)
    (h : g1 = "" ∨ r1 = "" ∨ g2 = "" ∨ r2 = "" ∨ g3 = "" ∨ r3 = "") :
    gratitude_submit tbl user today g1 r1 g2 r2 g3 r3 insertOk =
      (SubmitOutcome.validationFailure, tbl) := by
  have hne : ¬ (g1 ≠ "" ∧ r1 ≠ "" ∧ g2 ≠ "" ∧ r2 ≠ "" ∧ g3 ≠ "" ∧ r3 ≠ "") := by
    tauto
  simp [gratitude_submit, hne]

/-- Witness for C6: an empty first gratitude item is rejected. -/
theorem C6_empty_field_rejected_witness :
    gratitude_submit [] "Sarah9012" "2024-06-03" "" "b" "c" "d" "e" "f" true =
      (SubmitOutcome.validationFailure, []) :=
  C6_empty_field_rejected [] "Sarah9012" "2024-06-03" "" "b" "c" "d" "e" "f" true
    (Or.inl rfl)

/-- C5: a successful daily submission with all six fields non-empty
appends exactly the row `{user, today, g1, r1, g2, r2, g3, r3}` (the six
stored fields equal the inputs), and `has_submitted_today` for the same
user and day is then true. -/
theorem C5_daily_round_trip (tbl : List DailyRow) (user today : String)
    (g1 r1 g2 r2 g3 r3 : String)
    (h1 : g1 ≠ "") (h2 : r1 ≠ "") (h3 : g2 ≠ "") (h4 : r2 ≠ "")
    (h5 : g3 ≠ "") (h6 : r3 ≠ "") :
    gratitude_submit tbl user today g1 r1 g2 r2 g3 r3 true =
      (SubmitOutcome.saved, tbl ++ [⟨user, today, g1, r1, g2, r2, g3, r3⟩]) ∧
    has_submitted_today (tbl ++ [⟨user, today, g1, r1, g2, r2, g3, r3⟩]) user today
      = true := by
  constructor
  · simp [gratitude_submit, insert_daily, h1, h2, h3, h4, h5, h6]
  · simp [has_submitted_today, load_user_data_daily, List.filter_append,
      List.any_append]

/-- Witness for C5 at a concrete six-field submission. -/
theorem C5_daily_round_trip_witness :
    gratitude_submit [] "Sarah9012" "2024-06-03" "tea" "warm" "friend" "kind"
        "task" "done" true =
      (SubmitOutcome.saved,
        [⟨"Sarah9012", "2024-06-03", "tea", "warm", "friend", "kind", "task", "done"⟩]) ∧
    has_submitted_today
        [⟨"Sarah9012", "2024-06-03", "tea", "warm", "friend", "kind", "task", "done"⟩]
        "Sarah9012" "2024-06-03" = true := by
  have h := C5_daily_round_trip [] "Sarah9012" "2024-06-03" "tea" "warm" "friend"
    "kind" "task" "done" (by decide) (by decide) (by decide) (by decide)
    (by decide) (by decide)
  simpa using h

/-- C7: for either table, the rendered history of a regular
(non-superuser) session never includes the `user_id` column, and the
superuser's rendered view always includes it. -/
theorem C7_history_user_id_column (su : Bool) :
    ("user_id" ∈ daily_history_columns su ↔ su = true) ∧
    ("user_id" ∈ weekly_history_columns su ↔ su = true) := by
  cases su <;> decide

/-- C10: when the `admin` secrets section or the `superuser_name` key is
absent, `is_superuser` is `False` for every session identity, and both
tabs load the per-user filtered rows, never the unfiltered all-rows
view. -/
theorem C10_missing_admin_config (admin : AdminSecrets)
    (h : admin = none ∨ admin = some none) (user : String) :
    is_superuser_of admin user = false ∧ tab_scope admin user = DataScope.userRows := by
  rcases h with h | h <;> subst h <;> simp [is_superuser_of, tab_scope]

/-- Witness for C10 with no `admin` section at all. -/
theorem C10_missing_admin_config_witness :
    is_superuser_of none "Sarah9012" = false ∧
    tab_scope none "Sarah9012" = DataScope.userRows :=
  C10_missing_admin_config none (Or.inl rfl) "Sarah9012"

end GratitudeApp

namespace ReminderJob

/-- C8: if any of the five required environment variables is unset, the
reminder job exits with code 1 at the module-level check, before a backend
client is created or any email send is attempted. -/
theorem C8_missing_env_fatal (env : ReminderEnv) (users : List JobUserRow)
    (h : env.SUPABASE_URL = none ∨ env.SUPABASE_KEY = none ∨
      env.MAILJET_PUBLIC_KEY = none ∨ env.MAILJET_SECRET_KEY = none ∨
      env.SENDER_EMAIL = none) :
    reminder_job env users = JobOutcome.fatalExit1 := by
  rcases h with h | h | h | h | h <;> simp [reminder_job, env_ok, truthy, h]

/-- Witness for C8 with the backend URL unset. -/
theorem C8_missing_env_fatal_witness :
    reminder_job ⟨none, some "k", some "p", some "s", some "e"⟩
        [⟨"A", some "a@x"⟩] = JobOutcome.fatalExit1 :=
  C8_missing_env_fatal ⟨none, some "k", some "p", some "s", some "e"⟩
    [⟨"A", some "a@x"⟩] (Or.inl rfl)

end ReminderJob

namespace GratitudeApp

/-- Helper: an accepted email is non-empty. -/
theorem is_valid_email_ne_nil {email : List Char} (h : is_valid_email email = true) :
    email ≠ [] := by
  intro hnil
  subst hnil
  exact absurd h (by decide)

/-- Helper: with a working backend read, `check_user_exists` is true when a
row with the given `user_id` is present. -/
theorem check_user_exists_of_mem {tbl : List UserRow} {username : String}
    (hdup : ∃ r ∈ tbl, r.user_id = username) :
    check_user_exists tbl username true = true := by
  obtain ⟨r, hr, hru⟩ := hdup
  have hmem : r ∈ tbl.filter fun x => x.user_id = username :=
    List.mem_filter.mpr ⟨hr, by simp [hru]⟩
  have hpos : 0 < (tbl.filter fun x => x.user_id = username).length :=
    List.length_pos.mpr (List.ne_nil_of_mem hmem)
  simp [check_user_exists, hpos]

/-- C4: when a `user_data` row with the requested `user_id` already exists
and the backend existence query succeeds, a well-formed registration
attempt (non-empty username, email passing validation) fails with the
duplicate-user error and performs no insert: the table is returned
unchanged. -/
theorem C4_duplicate_rejected (tbl : List UserRow) (username : String)
    (email : List Char) (insertOk : Bool)
    (hu : username ≠ "") (he : is_valid_email email = true)
    (hdup : ∃ r ∈ tbl, r.user_id = username) :
    registration_submit tbl username email true insertOk =
      (RegOutcome.duplicateUser, tbl) := by
  have hne : ¬ (username = "" ∨ email = []) := by
    simp [hu, is_valid_email_ne_nil he]
  simp [registration_submit, hne, he, check_user_exists_of_mem hdup]

/-- Witness for C4: re-registering the existing user `"A"`. -/
theorem C4_duplicate_rejected_witness :
    registration_submit [⟨"A", ['x', '@', 'y', '.', 'z']⟩] "A"
        ['a', '@', 'b', '.', 'c'] true true =
      (RegOutcome.duplicateUser, [⟨"A", ['x', '@', 'y', '.', 'z']⟩]) :=
  C4_duplicate_rejected [⟨"A", ['x', '@', 'y', '.', 'z']⟩] "A"
    ['a', '@', 'b', '.', 'c'] true (by decide) (by decide)
    ⟨⟨"A", ['x', '@', 'y', '.', 'z']⟩, by decide, rfl⟩

/-- C9: when the backend existence query raises, `check_user_exists`
returns `false` instead of surfacing a store failure; hence during a read
outage every login attempt ends in the "username not found" warning, and a
well-formed registration treats every username — here even one already in
the table — as available and proceeds to the insert. -/
theorem C9_read_outage_behaviour (tbl : List UserRow) (username : String)
    (email : List Char) (hu : username ≠ "") (he : is_valid_email email = true) :
    check_user_exists tbl username false = false ∧
    login_submit tbl username false = LoginOutcome.userNotFound ∧
    registration_submit tbl username email false true =
      (RegOutcome.registered, tbl ++ [⟨username, email⟩]) := by
  have hne : ¬ (username = "" ∨ email = []) := by
    simp [hu, is_valid_email_ne_nil he]
  refine ⟨rfl, ?_, ?_⟩
  · simp [login_submit, check_user_exists, hu]
  · simp [registration_submit, hne, he, check_user_exists, register_new_user]

/-- Witness for C9: with the read failing, the already-registered username
`"A"` is logged as not found, and registering `"A"` again inserts a second
row for it. -/
theorem C9_read_outage_behaviour_witness :
    check_user_exists [⟨"A", ['x', '@', 'y', '.', 'z']⟩] "A" false = false ∧
    login_submit [⟨"A", ['x', '@', 'y', '.', 'z']⟩] "A" false =
      LoginOutcome.userNotFound ∧
    registration_submit [⟨"A", ['x', '@', 'y', '.', 'z']⟩] "A"
        ['a', '@', 'b', '.', 'c'] false true =
      (RegOutcome.registered,
        [⟨"A", ['x', '@', 'y', '.', 'z']⟩, ⟨"A", ['a', '@', 'b', '.', 'c']⟩]) :=
  C9_read_outage_behaviour [⟨"A", ['x', '@', 'y', '.', 'z']⟩] "A"
    ['a', '@', 'b', '.', 'c'] (by decide) (by decide)

end GratitudeApp

namespace ReminderJob

/-- Helper: one step of the send loop. -/
theorem main_sends_cons (r : JobUserRow) (rest : List JobUserRow) :
    main_sends (r :: rest) =
      match r.email with
      | some e => (r.user_id, e) :: main_sends rest
      | none => main_sends rest := by
  rcases r with ⟨u, oe⟩
  cases oe <;>
    simp [main_sends, fetch_users_for_reminder, List.filter_cons, List.filterMap_cons]

/-- C1 counterexample: with users A, B, C all having an email and B being
today's only submitter, the job sends to all of A, B, C — not to the set
difference {A, C} that the claim demands — so the user who submitted today
is emailed anyway. -/
theorem C1_counterexample :
    main_sends [⟨"A", some "a@x"⟩, ⟨"B", some "b@x"⟩, ⟨"C", some "c@x"⟩] =
      [("A", "a@x"), ("B", "b@x"), ("C", "c@x")] ∧
    to_remind_spec [⟨"A", some "a@x"⟩, ⟨"B", some "b@x"⟩, ⟨"C", some "c@x"⟩] ["B"] =
      ["A", "C"] ∧
    ("B", "b@x") ∈
      main_sends [⟨"A", some "a@x"⟩, ⟨"B", some "b@x"⟩, ⟨"C", some "c@x"⟩] := by
  decide

/-- C1 (amended): on every run the users sent a reminder are exactly the
registered users with a non-null email — in fetch order, with no
dependence on today's submissions (`main_sends` never consults the
`daily_gratitude` table) — and a user with no email is never emailed. -/
theorem C1_amended_send_set (users : List JobUserRow) (u : String) :
    (main_sends users).map Prod.fst =
      ((users.filter fun r => r.email.isSome).map fun r => r.user_id) ∧
    (u ∈ (main_sends users).map Prod.fst ↔ ∃ e, JobUserRow.mk u (some e) ∈ users) := by
  induction users with
  | nil => simp [main_sends, fetch_users_for_reminder]
  | cons r rest ih =>
    rcases r with ⟨uid, oe⟩
    cases oe with
    | none =>
      simpa [main_sends_cons, List.filter_cons, JobUserRow.mk.injEq] using ih
    | some e0 =>
      constructor
      · simp [main_sends_cons, List.filter_cons, ih.1]
      · simp [main_sends_cons, List.mem_cons, JobUserRow.mk.injEq, ih.2, exists_or]

end ReminderJob

namespace GratitudeApp

/-- Helper: `headNonAt` characterised. -/
theorem headNonAt_iff (l : List Char) :
    headNonAt l = true ↔ ∃ d r, l = d :: r ∧ d ≠ '@' := by
  cases l with
  | nil =>
    constructor
    · intro h; exact absurd h (by decide)
    · rintro ⟨d, r, h, -⟩; simp at h
  | cons d r =>
    simp only [headNonAt, decide_eq_true_eq]
    constructor
    · intro h; exact ⟨d, r, rfl, h⟩
    · rintro ⟨d', r', heq, hd⟩
      obtain ⟨rfl, rfl⟩ := List.cons.inj heq
      exact hd

/-- Helper: prefix matches of `[^@]*\.[^@]+` are exactly the lists of the
form (`'@'`-free block) `'.'` (non-`'@'` character) (anything). -/
theorem matchDotTail_iff (l : List Char) :
    matchDotTail l = true ↔
      ∃ b d r, l = b ++ '.' :: d :: r ∧ (∀ c ∈ b, c ≠ '@') ∧ d ≠ '@' := by
  induction l with
  | nil =>
    constructor
    · intro h; exact absurd h (by decide)
    · rintro ⟨b, d, r, h, -, -⟩; simp at h
  | cons c t ih =>
    simp only [matchDotTail, Bool.and_eq_true, Bool.or_eq_true, decide_eq_true_eq, ih]
    constructor
    · rintro ⟨hc, ⟨hcdot, hhead⟩ | ⟨b, d, r, ht, hb, hd⟩⟩
      · obtain ⟨d, r, rfl, hd⟩ := (headNonAt_iff t).mp hhead
        exact ⟨[], d, r, by simp [hcdot], by simp, hd⟩
      · refine ⟨c :: b, d, r, by simp [ht], ?_, hd⟩
        intro x hx
        rcases List.mem_cons.mp hx with rfl | hx
        · exact hc
        · exact hb x hx
    · rintro ⟨b, d, r, heq, hb, hd⟩
      cases b with
      | nil =>
        obtain ⟨rfl, rfl⟩ := List.cons.inj heq
        exact ⟨by decide, Or.inl ⟨rfl, (headNonAt_iff _).mpr ⟨d, r, rfl, hd⟩⟩⟩
      | cons b0 b' =>
        obtain ⟨rfl, rfl⟩ := List.cons.inj heq
        refine ⟨hb c (by simp), Or.inr ⟨b', d, r, rfl, ?_, hd⟩⟩
        intro x hx
        exact hb x (List.mem_cons_of_mem _ hx)

/-- Helper: prefix matches of `[^@]+\.[^@]+` additionally need the block
before the dot to be nonempty. -/
theorem matchAfterAt_iff (l : List Char) :
    matchAfterAt l = true ↔
      ∃ b d r, l = b ++ '.' :: d :: r ∧ b ≠ [] ∧ (∀ c ∈ b, c ≠ '@') ∧ d ≠ '@' := by
  cases l with
  | nil =>
    constructor
    · intro h; exact absurd h (by decide)
    · rintro ⟨b, d, r, h, -, -, -⟩; simp at h
  | cons c t =>
    simp only [matchAfterAt, Bool.and_eq_true, decide_eq_true_eq, matchDotTail_iff]
    constructor
    · rintro ⟨hc, b, d, r, ht, hb, hd⟩
      refine ⟨c :: b, d, r, by simp [ht], by simp, ?_, hd⟩
      intro x hx
      rcases List.mem_cons.mp hx with rfl | hx
      · exact hc
      · exact hb x hx
    · rintro ⟨b, d, r, heq, hbne, hb, hd⟩
      cases b with
      | nil => exact absurd rfl hbne
      | cons b0 b' =>
        obtain ⟨rfl, rfl⟩ := List.cons.inj heq
        refine ⟨hb c (by simp), b', d, r, rfl, ?_, hd⟩
        intro x hx
        exact hb x (List.mem_cons_of_mem _ hx)

/-- Helper: the pattern's `@` can only match the first `'@'` of the
string, so `findAtThen` succeeds exactly on lists that split at an `'@'`
preceded only by non-`'@'` characters, with the remainder matching
`[^@]+\.[^@]+`. -/
theorem findAtThen_iff (l : List Char) :
    findAtThen l = true ↔
      ∃ p q, l = p ++ '@' :: q ∧ (∀ c ∈ p, c ≠ '@') ∧ matchAfterAt q = true := by
  induction l with
  | nil =>
    constructor
    · intro h; exact absurd h (by decide)
    · rintro ⟨p, q, h, -, -⟩; simp at h
  | cons c t ih =>
    by_cases hc : c = '@'
    · subst hc
      simp only [findAtThen, if_pos rfl]
      constructor
      · intro h
        exact ⟨[], t, rfl, by simp, h⟩
      · rintro ⟨p, q, heq, hp, hq⟩
        cases p with
        | nil =>
          obtain ⟨-, rfl⟩ := List.cons.inj heq
          exact hq
        | cons p0 p' =>
          obtain ⟨rfl, -⟩ := List.cons.inj heq
          exact absurd rfl (hp _ (by simp))
    · simp only [findAtThen, if_neg hc, ih]
      constructor
      · rintro ⟨p, q, ht, hp, hq⟩
        refine ⟨c :: p, q, by simp [ht], ?_, hq⟩
        intro x hx
        rcases List.mem_cons.mp hx with rfl | hx
        · exact hc
        · exact hp x hx
      · rintro ⟨p, q, heq, hp, hq⟩
        cases p with
        | nil =>
          obtain ⟨rfl, -⟩ := List.cons.inj heq
          exact absurd rfl hc
        | cons p0 p' =>
          obtain ⟨rfl, rfl⟩ := List.cons.inj heq
          refine ⟨p', q, rfl, ?_, hq⟩
          intro x hx
          exact hp x (List.mem_cons_of_mem _ hx)

/-- Helper: full characterisation of the strings `is_valid_email`
accepts. -/
theorem is_valid_email_iff (l : List Char) :
    is_valid_email l = true ↔ EmailShape l := by
  cases l with
  | nil =>
    constructor
    · intro h; exact absurd h (by decide)
    · rintro ⟨a, b, d, r, h, -, -, -, -, -⟩; simp at h
  | cons c t =>
    simp only [is_valid_email, Bool.and_eq_true, decide_eq_true_eq, findAtThen_iff,
      matchAfterAt_iff, EmailShape]
    constructor
    · rintro ⟨hc, p, q, ht, hp, b, d, r, hq, hbne, hb, hd⟩
      refine ⟨c :: p, b, d, r, ?_, by simp, hbne, ?_, hb, hd⟩
      · rw [ht, hq]; simp
      · intro x hx
        rcases List.mem_cons.mp hx with rfl | hx
        · exact hc
        · exact hp x hx
    · rintro ⟨a, b, d, r, heq, hane, hbne, ha, hb, hd⟩
      cases a with
      | nil => exact absurd rfl hane
      | cons a0 a' =>
        obtain ⟨rfl, rfl⟩ := List.cons.inj heq
        refine ⟨ha c (by simp), a', b ++ '.' :: d :: r, rfl, ?_,
          b, d, r, rfl, hbne, hb, hd⟩
        intro x hx
        exact ha x (List.mem_cons_of_mem _ hx)

/-- Helper: `dropWhile (· ≠ '@')` over a list whose first `'@'` follows
the `'@'`-free block `a`. -/
theorem dropWhile_to_first_at (a q : List Char) (ha : ∀ c ∈ a, c ≠ '@') :
    ((a ++ '@' :: q).dropWhile fun c => c ≠ '@') = '@' :: q := by
  induction a with
  | nil => simp [List.dropWhile]
  | cons c a' ih =>
    have hc : c ≠ '@' := ha c (by simp)
    simp only [List.cons_append, List.dropWhile]
    rw [decide_eq_true hc]
    exact ih fun x hx => ha x (List.mem_cons_of_mem _ hx)

/-- Helper: every accepted email contains an `'@'` and a `'.'` strictly
after its first `'@'`. -/
theorem valid_email_has_at_dot (l : List Char) (h : is_valid_email l = true) :
    '@' ∈ l ∧ '.' ∈ (l.dropWhile fun c => c ≠ '@').drop 1 := by
  obtain ⟨a, b, d, r, rfl, -, -, ha, -, -⟩ := (is_valid_email_iff _).mp h
  constructor
  · simp
  · rw [dropWhile_to_first_at a _ ha]
    simp

end GratitudeApp

namespace GratitudeApp

/-- C2 counterexample: the claim's "exactly one `@` and at least one `.`
after it" condition disagrees with the code in both directions:
`"a@b.c@x"` (two `@`s) is accepted by `is_valid_email`, while `"a@b."`
(one `@`, a `.` after it) is rejected. -/
theorem C2_counterexample :
    (is_valid_email ['a', '@', 'b', '.', 'c', '@', 'x'] = true ∧
      spec_email_ok ['a', '@', 'b', '.', 'c', '@', 'x'] = false) ∧
    (is_valid_email ['a', '@', 'b', '.'] = false ∧
      spec_email_ok ['a', '@', 'b', '.'] = true) := by
  decide

/-- C2 (amended): the registration email validation accepts a string iff
some prefix of it has the shape (nonempty `'@'`-free block) `'@'`
(nonempty `'@'`-free block) `'.'` (one non-`'@'` character), everything
after that prefix being unconstrained; and whenever the string lacks an
`'@'`, or lacks a `'.'` strictly after its first `'@'`, a registration
attempt with non-empty fields fails with the invalid-input error and no
insert is attempted: the table is unchanged. -/
theorem C2_email_check_prefix_shape (email : List Char) :
    (is_valid_email email = true ↔ EmailShape email) ∧
    (∀ tbl username readOk insertOk, username ≠ "" → email ≠ [] →
      ('@' ∉ email ∨ '.' ∉ (email.dropWhile fun c => c ≠ '@').drop 1) →
      registration_submit tbl username email readOk insertOk =
        (RegOutcome.invalidInput, tbl)) := by
  refine ⟨is_valid_email_iff email, ?_⟩
  intro tbl username readOk insertOk hu hne hlacks
  have hinv : is_valid_email email = false := by
    rcases Bool.eq_false_or_eq_true (is_valid_email email) with h | h
    · obtain ⟨hat, hdot⟩ := valid_email_has_at_dot email h
      tauto
    · exact h
  have hcond : ¬ (username = "" ∨ email = []) := by simp [hu, hne]
  simp [registration_submit, hcond, hinv]

/-- Witness for C2 (amended), second part: an email with no `'@'` is
rejected as invalid input with the table unchanged. -/
theorem C2_email_check_prefix_shape_witness :
    registration_submit [] "Sarah9012" ['s', 'a', 'r', 'a', 'h', '.', 'c', 'o', 'm']
        true true = (RegOutcome.invalidInput, []) :=
  (C2_email_check_prefix_shape ['s', 'a', 'r', 'a', 'h', '.', 'c', 'o', 'm']).2
    [] "Sarah9012" true true (by decide) (by decide) (Or.inl (by decide))

end GratitudeApp
